import Mathlib

/-!
Shallow embedding of the weather ingestion-and-validation pipeline
(src/scripts/weather_api.py, src/airflow/dags/weather_data_dag.py,
src/airflow/dags/db_utils_airflow.py).

Conventions of the embedding:
* Floating point quantities (coordinates, weather metric values, delays)
  are modelled as rationals.
* The HTTP layer is modelled as an oracle `responses : Nat -> Except String APIResponse`
  giving the outcome of the attempt with the given 1-based attempt number;
  a `.error` value stands for a `requests.RequestException`
  (network failure or non-2xx status raised by `raise_for_status`).
* `time.sleep` calls are recorded in an explicit trace rather than performed.
* The warehouse table is `Option (List row)`: `none` means the table does
  not exist yet, `some rows` gives its contents.
* A pandas `DataFrame` built from a dict of columns is modelled by the
  column lists themselves; the pandas constructor raising
  `ValueError: All arrays must be of the same length` when column lengths
  disagree is modelled by an explicit length check returning `Except.error`.
-/

/-- The default metric list `WEATHER_METRICS` of `weather_api.py`. -/
def WEATHER_METRICS : List String :=
  ["temperature_2m", "relative_humidity_2m", "wind_speed_10m"]

/-- The `hourly` section of an Open-Meteo JSON response: the `time` array and
the metric value arrays that are present, as an association list. -/
structure HourlyData where
  time : List String
  values : List (String × List ℚ)
deriving DecidableEq, Repr

/-- A JSON response body: `response_data.get("hourly", {})` is modelled by an
optional `hourly` section. -/
structure APIResponse where
  hourly : Option HourlyData
deriving DecidableEq, Repr

/-- The DataFrame built by `WeatherAPIClient._parse_response`: a `datetime`
column and one column per requested metric. -/
structure DataFrame where
  datetime : List String
  cols : List (String × List ℚ)
deriving DecidableEq, Repr

/-- Row count of a parsed DataFrame (pandas `len(df)`), the length of the
`datetime` column. -/
def DataFrame.rowCount (df : DataFrame) : Nat := df.datetime.length

/-- `WeatherAPIClient._validate_coordinates` (weather_api.py lines 205-211):
latitude must lie in [-90, 90] and longitude in [-180, 180]; a violation
raises `ValueError` (modelled by `Except.error`). -/
def validate_coordinates (latitude longitude : ℚ) : Except String Unit :=
  if ¬(-90 ≤ latitude ∧ latitude ≤ 90) then
    Except.error "Invalid latitude. Must be between -90 and 90."
  else if ¬(-180 ≤ longitude ∧ longitude ≤ 180) then
    Except.error "Invalid longitude. Must be between -180 and 180."
  else
    Except.ok ()

/-- Inner loop of `WeatherAPIClient._make_request_with_retry`
(weather_api.py lines 226-255).  `attempt` is the current 1-based attempt
number, `remaining` the number of attempts still allowed (including the
current one), `last` the last caught exception.  Returns the final outcome
together with the list of performed `time.sleep(retry_delay)` delays.
`remaining = 0` corresponds to falling out of the `for` loop and executing
`raise last_exception`. -/
def requestLoop (responses : Nat → Except String APIResponse) (retry_delay : ℚ) :
    Nat → Nat → Option String → Except String APIResponse × List ℚ
  | _, 0, last => (Except.error (last.getD "TypeError: exceptions must derive from BaseException"), [])
  | attempt, remaining + 1, _ =>
    match responses attempt with
    | Except.ok data => (Except.ok data, [])
    | Except.error e =>
      if remaining = 0 then
        (Except.error e, [])
      else
        let r := requestLoop responses retry_delay (attempt + 1) remaining (some e)
        (r.1, retry_delay :: r.2)

/-- `WeatherAPIClient._make_request_with_retry` (weather_api.py lines 213-255):
`for attempt in range(1, retry_attempts + 1)`, returning the first successful
response, sleeping `retry_delay` after each failed non-final attempt, and
re-raising the last exception after the final failed attempt. -/
def make_request_with_retry (retry_attempts : Nat) (retry_delay : ℚ)
    (responses : Nat → Except String APIResponse) : Except String APIResponse × List ℚ :=
  requestLoop responses retry_delay 1 retry_attempts none

/-- `WeatherAPIClient._parse_response` (weather_api.py lines 257-283):
take `response_data.get("hourly", {})`, the timestamps
`hourly_data.get("time", [])`, and for each requested metric the column
`hourly_data.get(metric, [])` (an empty list when absent); then build the
DataFrame, which raises when the column lengths disagree with the
timestamp count. -/
def parse_response (metrics : List String) (response_data : APIResponse) :
    Except String DataFrame :=
  let hourly_data := response_data.hourly.getD ⟨[], []⟩
  let timestamps := hourly_data.time
  let cols := metrics.map (fun m => (m, (hourly_data.values.lookup m).getD []))
  if cols.all (fun c => c.2.length = timestamps.length) then
    Except.ok ⟨timestamps, cols⟩
  else
    Except.error "ValueError: All arrays must be of the same length"

/-- `WeatherAPIClient.fetch_weather_data` (weather_api.py lines 69-120):
validate coordinates, perform the request with retry, parse the response.
Returns the outcome together with the retry-sleep trace. -/
def fetch_weather_data (retry_attempts : Nat) (retry_delay : ℚ) (metrics : List String)
    (responses : Nat → Except String APIResponse) (latitude longitude : ℚ) :
    Except String DataFrame × List ℚ :=
  match validate_coordinates latitude longitude with
  | Except.error e => (Except.error e, [])
  | Except.ok _ =>
    match make_request_with_retry retry_attempts retry_delay responses with
    | (Except.error e, sleeps) => (Except.error e, sleeps)
    | (Except.ok data, sleeps) =>
      match parse_response metrics data with
      | Except.ok df => (Except.ok df, sleeps)
      | Except.error e => (Except.error e, sleeps)

/-- An outlet location as produced by `get_outlets_from_database`:
a dict with keys outlet_id, latitude, longitude. -/
structure Location where
  outlet_id : Int
  latitude : ℚ
  longitude : ℚ
deriving DecidableEq, Repr

/-- Events performed by `fetch_weather_for_multiple_locations`, in order:
skipping a (0,0) location, attempting a fetch (calling `fetch_weather_data`
with the given coordinates), and sleeping `delay_between_requests`. -/
inductive FetchEvent where
  | skip (outlet_id : Int)
  | attempt (outlet_id : Int) (latitude longitude : ℚ)
  | sleep (delay : ℚ)
deriving DecidableEq, Repr

/-- Inner loop of `WeatherAPIClient.fetch_weather_for_multiple_locations`
(weather_api.py lines 150-199).  `total` is `len(locations)`, `idx` the
1-based index of the current location.  The per-location fetch is the oracle
`fetchResult` (the outcome of `fetch_weather_data` at those coordinates).
On success the DataFrame gets an `outlet_id` column (modelled row-wise as
`(outlet_id, datetime)` pairs) and, when `idx < total`,
`time.sleep(delay_between_requests)` runs; on failure the exception is
logged and the loop continues with no sleep. -/
def fetchManyLoop (fetchResult : ℚ → ℚ → Except String DataFrame) (delay : ℚ) (total : Nat) :
    Nat → List Location → List (Int × String) × List FetchEvent
  | _, [] => ([], [])
  | idx, loc :: rest =>
    if loc.latitude = 0 ∧ loc.longitude = 0 then
      let r := fetchManyLoop fetchResult delay total (idx + 1) rest
      (r.1, FetchEvent.skip loc.outlet_id :: r.2)
    else
      match fetchResult loc.latitude loc.longitude with
      | Except.ok df =>
        let tagged := df.datetime.map (fun t => (loc.outlet_id, t))
        let r := fetchManyLoop fetchResult delay total (idx + 1) rest
        if idx < total then
          (tagged ++ r.1,
            FetchEvent.attempt loc.outlet_id loc.latitude loc.longitude
              :: FetchEvent.sleep delay :: r.2)
        else
          (tagged ++ r.1,
            FetchEvent.attempt loc.outlet_id loc.latitude loc.longitude :: r.2)
      | Except.error _ =>
        let r := fetchManyLoop fetchResult delay total (idx + 1) rest
        (r.1, FetchEvent.attempt loc.outlet_id loc.latitude loc.longitude :: r.2)

/-- `WeatherAPIClient.fetch_weather_for_multiple_locations`
(weather_api.py lines 122-203): iterate the locations in order starting at
index 1; the combined DataFrame is the concatenation of all successfully
fetched, outlet-tagged frames (`pd.concat`), or the empty frame when nothing
was fetched.  Returns the combined rows and the event trace. -/
def fetch_weather_for_multiple_locations (fetchResult : ℚ → ℚ → Except String DataFrame)
    (delay : ℚ) (locations : List Location) : List (Int × String) × List FetchEvent :=
  fetchManyLoop fetchResult delay locations.length 1 locations

/-- `save_weather_to_database` (weather_api.py lines 326-365) acting on a
table state `Option (List α)` (`none` = the table does not exist).
Empty input returns immediately.  With `if_exists = "replace"` the table is
truncated when it exists; when the `TRUNCATE` fails because the table does
not exist, the exception is caught and the code falls through to append.
`df.to_sql(..., if_exists="append")` appends to an existing table and
creates the table when it is missing. -/
def save_weather_to_database (df : List α) (table : Option (List α))
    (if_exists : String) : Option (List α) :=
  if df.isEmpty then
    table
  else
    let table := if if_exists = "replace" then
      match table with
      | some _ => some ([] : List α)
      | none => none
    else table
    match table with
    | some rows => some (rows ++ df)
    | none => some df

/-- Row count of a table state: 0 when the table does not exist. -/
def table_row_count (table : Option (List α)) : Nat := (table.getD []).length

/-- `get_table_count` (db_utils_airflow.py lines 123-150): run
`SELECT COUNT(*) FROM schema.table` through the warehouse (modelled as the
oracle `runQuery`); on success return the count, on any exception log it
and return 0.  The function is total: it never raises. -/
def get_table_count (runQuery : String → String → Except String Nat)
    (schema tbl : String) : Nat :=
  match runQuery schema tbl with
  | Except.ok n => n
  | Except.error _ => 0

/-- A row of the `raw.weather` table as read back by the validation stage;
every column may be NULL in principle. -/
structure WRow where
  outlet_id : Option Int
  datetime : Option String
  temperature_2m : Option ℚ
  relative_humidity_2m : Option ℚ
  wind_speed_10m : Option ℚ
deriving DecidableEq, Repr

/-- The distinct failure kinds raised (as `ValueError`) by
`validate_weather_data_task`, each carrying the offending-row count the
message reports. -/
inductive VError where
  | EmptyTable
  | CountMismatch (deficit : Nat)
  | NullOutletId (count : Nat)
  | NullDatetime (count : Nat)
  | NullTemperature (count : Nat)
  | RangeTemperature (count : Nat)
  | RangeHumidity (count : Nat)
  | RangeWindSpeed (count : Nat)
  | OrphanReference (count : Nat)
deriving DecidableEq, Repr

/-- The successive blocks of `validate_weather_data_task`, one per warehouse
query it executes: the row count (check 1), the fetched-count comparison
(check 2), the combined NULL-count query (check 3), the date-range query
(check 4), the range-quality query (check 5) and the foreign-key query
(check 6). -/
inductive CheckName where
  | rowCount
  | countMatch
  | nullChecks
  | dateRange
  | rangeChecks
  | fkCheck
deriving DecidableEq, Repr

/-- `COUNT(*) FILTER (WHERE outlet_id IS NULL)` over `raw.weather`. -/
def null_outlet_count (rows : List WRow) : Nat :=
  (rows.filter (fun r => r.outlet_id.isNone)).length

/-- `COUNT(*) FILTER (WHERE datetime IS NULL)` over `raw.weather`. -/
def null_datetime_count (rows : List WRow) : Nat :=
  (rows.filter (fun r => r.datetime.isNone)).length

/-- `COUNT(*) FILTER (WHERE temperature_2m IS NULL)` over `raw.weather`. -/
def null_temperature_count (rows : List WRow) : Nat :=
  (rows.filter (fun r => r.temperature_2m.isNone)).length

/-- `COUNT(*) FILTER (WHERE temperature_2m < -50 OR temperature_2m > 60)`:
SQL comparisons against NULL are not true, so NULL temperatures do not
count. -/
def bad_temp_count (rows : List WRow) : Nat :=
  (rows.filter (fun r =>
    match r.temperature_2m with
    | some t => decide (t < -50) || decide (t > 60)
    | none => false)).length

/-- `COUNT(*) FILTER (WHERE relative_humidity_2m < 0 OR relative_humidity_2m > 100)`. -/
def bad_humidity_count (rows : List WRow) : Nat :=
  (rows.filter (fun r =>
    match r.relative_humidity_2m with
    | some h => decide (h < 0) || decide (h > 100)
    | none => false)).length

/-- `COUNT(*) FILTER (WHERE wind_speed_10m < 0 OR wind_speed_10m > 200)`. -/
def bad_wind_count (rows : List WRow) : Nat :=
  (rows.filter (fun r =>
    match r.wind_speed_10m with
    | some w => decide (w < 0) || decide (w > 200)
    | none => false)).length

/-- The `LEFT JOIN raw.outlet ... WHERE o.id IS NULL` orphan count: rows
whose outlet_id matches no outlet id (a NULL outlet_id never matches). -/
def orphan_count (rows : List WRow) (outlet_ids : List Int) : Nat :=
  (rows.filter (fun r =>
    match r.outlet_id with
    | some oid => !(outlet_ids.contains oid)
    | none => true)).length

/-- Check 2 of `validate_weather_data_task` (weather_data_dag.py lines
252-262): `if fetched_count and weather_count != fetched_count`, Python
truthiness meaning a `None` or zero fetched count skips the comparison;
the raised message reports `abs(fetched_count - weather_count)` lost
records. -/
def count_check (fetched_count : Option Nat) (weather_count : Nat) : Option VError :=
  match fetched_count with
  | none => none
  | some n =>
    if n ≠ 0 ∧ weather_count ≠ n then
      some (VError.CountMismatch ((n : Int) - (weather_count : Int)).natAbs)
    else
      none

/-- Check 3 of `validate_weather_data_task` (weather_data_dag.py lines
264-305): the three critical NULL counts raise in order; humidity and
wind-speed NULLs only warn. -/
def null_checks (rows : List WRow) : Option VError :=
  if null_outlet_count rows ≠ 0 then
    some (VError.NullOutletId (null_outlet_count rows))
  else if null_datetime_count rows ≠ 0 then
    some (VError.NullDatetime (null_datetime_count rows))
  else if null_temperature_count rows ≠ 0 then
    some (VError.NullTemperature (null_temperature_count rows))
  else
    none

/-- Check 5 of `validate_weather_data_task` (weather_data_dag.py lines
324-359): temperature, humidity and wind-speed range violations raise in
order. -/
def quality_checks (rows : List WRow) : Option VError :=
  if bad_temp_count rows ≠ 0 then
    some (VError.RangeTemperature (bad_temp_count rows))
  else if bad_humidity_count rows ≠ 0 then
    some (VError.RangeHumidity (bad_humidity_count rows))
  else if bad_wind_count rows ≠ 0 then
    some (VError.RangeWindSpeed (bad_wind_count rows))
  else
    none

/-- Check 6 of `validate_weather_data_task` (weather_data_dag.py lines
361-379). -/
def fk_check (rows : List WRow) (outlet_ids : List Int) : Option VError :=
  if orphan_count rows outlet_ids ≠ 0 then
    some (VError.OrphanReference (orphan_count rows outlet_ids))
  else
    none

/-- `validate_weather_data_task` (weather_data_dag.py lines 224-389):
the stored table contents are `rows`, the XCom value pulled from the fetch
task is `fetched_count` (`none` when the pull yields nothing), and
`outlet_ids` are the ids present in `raw.outlet`.  The checks run in
source order; each `raise ValueError` aborts the task at once, so the
returned list records which query blocks actually executed before the
first failure. -/
def validate_weather_data_task (fetched_count : Option Nat) (rows : List WRow)
    (outlet_ids : List Int) : List CheckName × Except VError Unit :=
  if rows.length = 0 then
    ([CheckName.rowCount], Except.error VError.EmptyTable)
  else
    match count_check fetched_count rows.length with
    | some e => ([CheckName.rowCount, CheckName.countMatch], Except.error e)
    | none =>
      match null_checks rows with
      | some e =>
        ([CheckName.rowCount, CheckName.countMatch, CheckName.nullChecks], Except.error e)
      | none =>
        match quality_checks rows with
        | some e =>
          ([CheckName.rowCount, CheckName.countMatch, CheckName.nullChecks,
            CheckName.dateRange, CheckName.rangeChecks], Except.error e)
        | none =>
          match fk_check rows outlet_ids with
          | some e =>
            ([CheckName.rowCount, CheckName.countMatch, CheckName.nullChecks,
              CheckName.dateRange, CheckName.rangeChecks, CheckName.fkCheck], Except.error e)
          | none =>
            ([CheckName.rowCount, CheckName.countMatch, CheckName.nullChecks,
              CheckName.dateRange, CheckName.rangeChecks, CheckName.fkCheck], Except.ok ())

/-- Whether an embedded fallible call returned normally. -/
def Except.succeeded : Except ε α → Bool
  | Except.ok _ => true
  | Except.error _ => false

/-- A well-formed stored weather row used for concrete instances. -/
def okRow : WRow :=
  ⟨some 1, some "2023-01-01T00:00", some 20, some 50, some 10⟩

/-- A stored row with a NULL outlet_id. -/
def nullOutletRow : WRow :=
  ⟨none, some "2023-01-01T01:00", some 20, some 50, some 10⟩

/-- A stored row with an impossible temperature of 75 degrees Celsius. -/
def hotRow : WRow :=
  ⟨some 1, some "2023-01-01T02:00", some 75, some 50, some 10⟩

/-- C9: calling the store operation with an empty dataset returns at
`if df.empty: return` before any truncate or insert, for any table state
and any `if_exists` mode, so a replace with empty data leaves the table
untouched. -/
theorem save_empty_dataset_is_noop (table : Option (List α)) (if_exists : String) :
    save_weather_to_database ([] : List α) table if_exists = table := rfl

/-- C4: running the store operation with replace semantics twice with the
same dataset leaves the weather table with the same final row count as
running it once. -/
theorem save_replace_idempotent (df : List α) (table : Option (List α)) :
    table_row_count
        (save_weather_to_database df (save_weather_to_database df table "replace") "replace")
      = table_row_count (save_weather_to_database df table "replace") := by
  by_cases h : df.isEmpty
  · simp [save_weather_to_database, h]
  · cases table <;> simp [save_weather_to_database, h, table_row_count]

/-- C10: `get_table_count` never raises; whenever the underlying COUNT
query fails it returns 0, which is indistinguishable from the count of a
genuinely empty table. -/
theorem get_table_count_error_is_zero (runQuery : String → String → Except String Nat)
    (schema tbl e : String) (h : runQuery schema tbl = Except.error e) :
    get_table_count runQuery schema tbl = 0 ∧
    get_table_count runQuery schema tbl =
      get_table_count (fun _ _ => Except.ok 0) schema tbl := by
  simp [get_table_count, h]

/-- Witness for `get_table_count_error_is_zero` at a concrete failing
query. -/
theorem get_table_count_error_is_zero_witness :
    get_table_count (fun _ _ => Except.error "connection refused") "raw" "weather" = 0 ∧
    get_table_count (fun _ _ => Except.error "connection refused") "raw" "weather" =
      get_table_count (fun _ _ => Except.ok 0) "raw" "weather" :=
  get_table_count_error_is_zero (fun _ _ => Except.error "connection refused")
    "raw" "weather" "connection refused" rfl

/-- C1: with a positive fetched count pulled from XCom and a non-empty
stored table, the row-count hard check passes exactly when the stored
count equals the fetched count, and on a mismatch the validation stage
fails with the count-mismatch error reporting the absolute deficit. -/
theorem row_count_check_exact (n : Nat) (rows : List WRow) (outlet_ids : List Int)
    (hn : 0 < n) (hrows : 0 < rows.length) :
    (count_check (some n) rows.length = none ↔ rows.length = n) ∧
    (rows.length ≠ n →
      (validate_weather_data_task (some n) rows outlet_ids).2 =
        Except.error (VError.CountMismatch ((n : Int) - (rows.length : Int)).natAbs)) := by
  constructor
  · simp [count_check, hn.ne']
  · intro hne
    have hc : count_check (some n) rows.length =
        some (VError.CountMismatch ((n : Int) - (rows.length : Int)).natAbs) := by
      simp [count_check, hn.ne', hne]
    simp [validate_weather_data_task, hrows.ne', hc]

/-- Witness for `row_count_check_exact`: one stored row against a fetched
count of 2 fails with a reported deficit of 1. -/
theorem row_count_check_exact_witness :
    (count_check (some 2) [okRow].length = none ↔ [okRow].length = 2) ∧
    ([okRow].length ≠ 2 →
      (validate_weather_data_task (some 2) [okRow] [1]).2 =
        Except.error (VError.CountMismatch (((2 : Nat) : Int) - (([okRow].length : Nat) : Int)).natAbs)) :=
  row_count_check_exact 2 [okRow] [1] (by decide) (by decide)

deriving instance DecidableEq for Except

/-- A stored table holding both a NULL outlet_id violation and a
temperature range violation. -/
def twoViolationRows : List WRow := [nullOutletRow, hotRow]

/-- C2 counterexample: on a table containing both a NULL outlet_id row and
an out-of-range temperature row, the validation stage raises at the NULL
check; the range-check and foreign-key queries are never executed, so the
run does not report the range violation that is present in the data. -/
theorem validate_skips_later_checks_cex :
    bad_temp_count twoViolationRows ≠ 0 ∧
    (validate_weather_data_task (some 2) twoViolationRows [1]).2 =
      Except.error (VError.NullOutletId 1) ∧
    CheckName.rangeChecks ∉ (validate_weather_data_task (some 2) twoViolationRows [1]).1 ∧
    CheckName.fkCheck ∉ (validate_weather_data_task (some 2) twoViolationRows [1]).1 := by
  decide

/-- C2 amended: the checks run in source order and the validation stage
aborts at the first hard check with a nonzero violating count; checks after
the first hard failure are skipped.  Stated at a failing NULL check: when
the table is non-empty and the count comparison passes, a failing NULL
check determines the outcome and the range and foreign-key checks do not
run. -/
theorem validate_stops_at_first_hard_failure (fetched : Option Nat) (rows : List WRow)
    (outlet_ids : List Int) (e : VError)
    (h0 : rows.length ≠ 0) (h1 : count_check fetched rows.length = none)
    (h2 : null_checks rows = some e) :
    (validate_weather_data_task fetched rows outlet_ids).2 = Except.error e ∧
    CheckName.rangeChecks ∉ (validate_weather_data_task fetched rows outlet_ids).1 ∧
    CheckName.fkCheck ∉ (validate_weather_data_task fetched rows outlet_ids).1 := by
  simp [validate_weather_data_task, h0, h1, h2]

/-- Witness for `validate_stops_at_first_hard_failure` on the concrete
two-violation table. -/
theorem validate_stops_at_first_hard_failure_witness :
    (validate_weather_data_task (some 2) twoViolationRows [5]).2 =
      Except.error (VError.NullOutletId 1) ∧
    CheckName.rangeChecks ∉ (validate_weather_data_task (some 2) twoViolationRows [5]).1 ∧
    CheckName.fkCheck ∉ (validate_weather_data_task (some 2) twoViolationRows [5]).1 :=
  validate_stops_at_first_hard_failure (some 2) twoViolationRows [5]
    (VError.NullOutletId 1) (by decide) (by decide) (by decide)

/-- A response whose hourly section has one timestamp but none of the
requested metric arrays. -/
def respWithoutMetrics : APIResponse := ⟨some ⟨["2023-01-01T00:00"], []⟩⟩

/-- C3 counterexample: for a response whose hourly section has a non-empty
time array but lacks the requested metrics, `_parse_response` does not
return normally with null columns; the missing columns default to empty
lists and the DataFrame construction raises a length-mismatch error. -/
theorem parse_response_missing_metric_cex :
    (parse_response WEATHER_METRICS respWithoutMetrics).succeeded = false ∧
    parse_response WEATHER_METRICS respWithoutMetrics =
      Except.error "ValueError: All arrays must be of the same length" := by
  decide

/-- C3 amended: any requested metric absent from a response whose hourly
time array is non-empty makes its column default to the empty list, so the
DataFrame construction fails with the pandas length-mismatch error and
fetchOne raises rather than producing an all-null column. -/
theorem parse_response_missing_metric_errors (metrics : List String) (hd : HourlyData)
    (m : String) (hm : m ∈ metrics) (habs : hd.values.lookup m = none)
    (ht : hd.time ≠ []) :
    parse_response metrics ⟨some hd⟩ =
      Except.error "ValueError: All arrays must be of the same length" := by
  have hlen : hd.time.length ≠ 0 := by
    simpa using ht
  unfold parse_response
  rw [if_neg]
  intro hall
  rw [List.all_eq_true] at hall
  have hmem : (m, ((hd.values.lookup m).getD [])) ∈
      metrics.map (fun mm => (mm, ((hd.values.lookup mm).getD []))) :=
    List.mem_map_of_mem _ hm
  have hx := hall _ hmem
  rw [habs] at hx
  simp at hx
  exact hlen hx.symm

/-- Witness for `parse_response_missing_metric_errors` on the concrete
metric-free response. -/
theorem parse_response_missing_metric_errors_witness :
    parse_response WEATHER_METRICS ⟨some ⟨["2023-01-01T00:00"], []⟩⟩ =
      Except.error "ValueError: All arrays must be of the same length" :=
  parse_response_missing_metric_errors WEATHER_METRICS ⟨["2023-01-01T00:00"], []⟩
    "temperature_2m" (by decide) rfl (by decide)

/-- If every attempt in the window fails, the request loop returns the
outcome of the final attempt and sleeps once after each non-final
attempt. -/
theorem requestLoop_all_fail (responses : Nat → Except String APIResponse) (delay : ℚ) :
    ∀ remaining attempt last, remaining ≠ 0 →
    (∀ i, attempt ≤ i → i < attempt + remaining → (responses i).succeeded = false) →
    requestLoop responses delay attempt remaining last =
      (responses (attempt + remaining - 1), List.replicate (remaining - 1) delay) := by
  intro remaining
  induction remaining with
  | zero => intro attempt last h0 _; exact absurd rfl h0
  | succ r ih =>
    intro attempt last _ hfail
    have hcur : (responses attempt).succeeded = false :=
      hfail attempt le_rfl (by omega)
    cases hresp : responses attempt with
    | ok data => rw [hresp] at hcur; simp [Except.succeeded] at hcur
    | error e =>
      by_cases hr : r = 0
      · subst hr
        simp [requestLoop, hresp]
      · have hrec := ih (attempt + 1) (some e) hr
          (fun i h1 h2 => hfail i (by omega) (by omega))
        have harith : attempt + 1 + r - 1 = attempt + (r + 1) - 1 := by omega
        rw [harith] at hrec
        have hrep : List.replicate r delay = delay :: List.replicate (r - 1) delay := by
          conv_lhs => rw [show r = (r - 1) + 1 by omega]
          rw [List.replicate_succ]
        simp [requestLoop, hresp, hr, hrec, hrep]

/-- If the first `k` attempts fail and attempt `k + 1` succeeds within the
allowed window, the request loop returns the successful response having
slept exactly `k` times. -/
theorem requestLoop_succeeds (responses : Nat → Except String APIResponse) (delay : ℚ) :
    ∀ k remaining attempt last data, k < remaining →
    (∀ i, attempt ≤ i → i < attempt + k → (responses i).succeeded = false) →
    responses (attempt + k) = Except.ok data →
    requestLoop responses delay attempt remaining last =
      (Except.ok data, List.replicate k delay) := by
  intro k
  induction k with
  | zero =>
    intro remaining attempt last data hlt _ hok
    obtain ⟨r, rfl⟩ : ∃ r, remaining = r + 1 := ⟨remaining - 1, by omega⟩
    rw [Nat.add_zero] at hok
    simp [requestLoop, hok]
  | succ k ih =>
    intro remaining attempt last data hlt hfail hok
    obtain ⟨r, rfl⟩ : ∃ r, remaining = r + 1 := ⟨remaining - 1, by omega⟩
    have hcur : (responses attempt).succeeded = false :=
      hfail attempt le_rfl (by omega)
    cases hresp : responses attempt with
    | ok d => rw [hresp] at hcur; simp [Except.succeeded] at hcur
    | error e =>
      have hr : r ≠ 0 := by omega
      have hrec := ih r (attempt + 1) (some e) data (by omega)
        (fun i h1 h2 => hfail i (by omega) (by omega))
        (by rw [show attempt + 1 + k = attempt + (k + 1) by omega]; exact hok)
      simp [requestLoop, hresp, hr, hrec, List.replicate_succ]

/-- C6: on HTTP or network failure `_make_request_with_retry` tries up to
`retry_attempts` attempts with one fixed `retry_delay` sleep after each
failed non-final attempt; if every attempt fails it raises the outcome of
the last attempt (the last underlying exception), and if the first `k`
attempts fail and attempt `k + 1` succeeds it returns that response having
slept exactly `k` times. -/
theorem make_request_with_retry_spec (retry_attempts : Nat) (retry_delay : ℚ)
    (responses : Nat → Except String APIResponse) (h : 1 ≤ retry_attempts) :
    ((∀ i, 1 ≤ i → i ≤ retry_attempts → (responses i).succeeded = false) →
      make_request_with_retry retry_attempts retry_delay responses =
        (responses retry_attempts, List.replicate (retry_attempts - 1) retry_delay)) ∧
    (∀ k data, k < retry_attempts →
      (∀ i, 1 ≤ i → i ≤ k → (responses i).succeeded = false) →
      responses (k + 1) = Except.ok data →
      make_request_with_retry retry_attempts retry_delay responses =
        (Except.ok data, List.replicate k retry_delay)) := by
  constructor
  · intro hfail
    have hall := requestLoop_all_fail responses retry_delay retry_attempts 1 none
      (by omega) (fun i h1 h2 => hfail i h1 (by omega))
    rw [show 1 + retry_attempts - 1 = retry_attempts by omega] at hall
    rw [make_request_with_retry, hall]
  · intro k data hlt hfail hok
    exact requestLoop_succeeds responses retry_delay k retry_attempts 1 none data hlt
      (fun i h1 h2 => hfail i h1 (by omega))
      (by rw [show 1 + k = k + 1 by omega]; exact hok)

/-- A successfully parsed but empty response body. -/
def apiOkResp : APIResponse := ⟨some ⟨[], []⟩⟩

/-- An HTTP oracle returning 500 on the first two attempts and 200 on the
third. -/
def resp500TwiceThen200 : Nat → Except String APIResponse :=
  fun i => if i ≤ 2 then Except.error "500 Server Error" else Except.ok apiOkResp

/-- Witness for `make_request_with_retry_spec`, scenario F: HTTP 500 twice
then 200 succeeds on the third attempt having slept the retry delay exactly
twice. -/
theorem make_request_with_retry_spec_witness :
    make_request_with_retry 3 5 resp500TwiceThen200 =
      (Except.ok apiOkResp, List.replicate 2 (5 : ℚ)) :=
  (make_request_with_retry_spec 3 5 resp500TwiceThen200 (by omega)).2 2 apiOkResp
    (by omega)
    (fun i h1 h2 => by simp [resp500TwiceThen200, h2, Except.succeeded])
    rfl

/-- The sum over the input locations of the row counts of the successful
per-location fetchOne calls: (0,0) locations are never attempted and
failed fetches contribute nothing. -/
def successful_row_count (fetchResult : ℚ → ℚ → Except String DataFrame)
    (locations : List Location) : Nat :=
  locations.foldr (fun loc acc =>
    (if loc.latitude = 0 ∧ loc.longitude = 0 then 0
     else match fetchResult loc.latitude loc.longitude with
       | Except.ok df => df.rowCount
       | Except.error _ => 0) + acc) 0

/-- The combined row list produced by the fetchMany loop has exactly the
summed length of the successful per-location results, for any starting
index. -/
theorem fetchManyLoop_rows_length (f : ℚ → ℚ → Except String DataFrame) (d : ℚ)
    (total : Nat) :
    ∀ locs idx, (fetchManyLoop f d total idx locs).1.length = successful_row_count f locs := by
  intro locs
  induction locs with
  | nil => intro idx; rfl
  | cons loc rest ih =>
    intro idx
    by_cases h : loc.latitude = 0 ∧ loc.longitude = 0
    · simp [fetchManyLoop, h, successful_row_count, ih]
    · cases hf : f loc.latitude loc.longitude with
      | ok df =>
        by_cases hidx : idx < total <;>
          simp [fetchManyLoop, h, hf, hidx, successful_row_count, DataFrame.rowCount, ih]
      | error e =>
        simp [fetchManyLoop, h, hf, successful_row_count, ih]

/-- If every location in the list either has (0,0) coordinates or fails to
fetch, the fetchMany loop produces no rows. -/
theorem successful_row_count_all_fail (f : ℚ → ℚ → Except String DataFrame)
    (locs : List Location)
    (hfail : ∀ loc ∈ locs, (f loc.latitude loc.longitude).succeeded = false) :
    successful_row_count f locs = 0 := by
  induction locs with
  | nil => rfl
  | cons loc rest ih =>
    have hrest := ih (fun l hl => hfail l (List.mem_cons_of_mem _ hl))
    have hloc := hfail loc (List.mem_cons_self _ _)
    by_cases h : loc.latitude = 0 ∧ loc.longitude = 0
    · simp [successful_row_count, h] at hrest ⊢
      exact hrest
    · cases hf : f loc.latitude loc.longitude with
      | ok df => rw [hf] at hloc; simp [Except.succeeded] at hloc
      | error e =>
        simp [successful_row_count, h, hf] at hrest ⊢
        exact hrest

/-- C5: the fetchMany output row count equals the sum of the row counts of
the successful per-location fetchOne calls; when every location fails the
result is empty, and the empty input yields an empty result, never an
error. -/
theorem fetch_many_row_count (f : ℚ → ℚ → Except String DataFrame) (d : ℚ)
    (locations : List Location) :
    (fetch_weather_for_multiple_locations f d locations).1.length =
      successful_row_count f locations ∧
    ((∀ loc ∈ locations, (f loc.latitude loc.longitude).succeeded = false) →
      (fetch_weather_for_multiple_locations f d locations).1 = []) ∧
    (fetch_weather_for_multiple_locations f d []).1 = [] := by
  refine ⟨fetchManyLoop_rows_length f d locations.length locations 1, ?_, rfl⟩
  intro hfail
  have hlen : (fetch_weather_for_multiple_locations f d locations).1.length = 0 := by
    rw [fetch_weather_for_multiple_locations,
      fetchManyLoop_rows_length f d locations.length locations 1,
      successful_row_count_all_fail f locations hfail]
  exact List.length_eq_zero.mp hlen

/-- An oracle whose fetch fails at latitude 10 and succeeds with a
one-row frame elsewhere. -/
def fetchFailAt10 : ℚ → ℚ → Except String DataFrame :=
  fun la _ =>
    if la = 10 then Except.error "SourceUnavailable"
    else Except.ok ⟨["2023-01-01T00:00"], []⟩

/-- Witness for `fetch_many_row_count`: with a single location whose fetch
fails, the all-fail hypothesis is discharged and the result is empty. -/
theorem fetch_many_row_count_witness :
    (fetch_weather_for_multiple_locations fetchFailAt10 (1 / 2) [⟨7, 10, 10⟩]).1 = [] :=
  (fetch_many_row_count fetchFailAt10 (1 / 2) [⟨7, 10, 10⟩]).2.1 (by decide)

/-- Whether a trace event is a fetch attempt at coordinates (0, 0). -/
def isOriginAttempt : FetchEvent → Bool
  | FetchEvent.attempt _ la lo => decide (la = 0) && decide (lo = 0)
  | _ => false

/-- The fetchMany loop never records a fetch attempt at (0, 0), for any
starting index. -/
theorem fetchManyLoop_no_origin_attempt (f : ℚ → ℚ → Except String DataFrame) (d : ℚ)
    (total : Nat) :
    ∀ locs idx, ((fetchManyLoop f d total idx locs).2.filter isOriginAttempt) = [] := by
  intro locs
  induction locs with
  | nil => intro idx; rfl
  | cons loc rest ih =>
    intro idx
    by_cases h : loc.latitude = 0 ∧ loc.longitude = 0
    · simp [fetchManyLoop, h, isOriginAttempt, ih]
    · have hattempt : isOriginAttempt
          (FetchEvent.attempt loc.outlet_id loc.latitude loc.longitude) = false := by
        simp [isOriginAttempt]
        tauto
      cases hf : f loc.latitude loc.longitude with
      | ok df =>
        by_cases hidx : idx < total <;>
          simp [fetchManyLoop, h, hf, hidx, isOriginAttempt, hattempt, ih]
      | error e =>
        simp [fetchManyLoop, h, hf, hattempt, ih]

/-- C7: fetchMany never attempts a fetch for coordinates exactly (0, 0)
however the per-location fetch behaves, while the out-of-range coordinates
latitude 90.0001 and longitude 180.0001 make the fetch fail with the
invalid-coordinates error. -/
theorem origin_excluded_and_range_enforced (f : ℚ → ℚ → Except String DataFrame)
    (d : ℚ) (locations : List Location)
    (responses : Nat → Except String APIResponse) :
    validate_coordinates 0 0 = Except.ok () ∧
    ((fetch_weather_for_multiple_locations f d locations).2.filter isOriginAttempt) = [] ∧
    validate_coordinates (900001 / 10000) 45 =
      Except.error "Invalid latitude. Must be between -90 and 90." ∧
    validate_coordinates 45 (1800001 / 10000) =
      Except.error "Invalid longitude. Must be between -180 and 180." ∧
    (fetch_weather_data 3 5 WEATHER_METRICS responses (900001 / 10000) 45).1 =
      Except.error "Invalid latitude. Must be between -90 and 90." ∧
    (fetch_weather_data 3 5 WEATHER_METRICS responses 45 (1800001 / 10000)).1 =
      Except.error "Invalid longitude. Must be between -180 and 180." := by
  have hlat : validate_coordinates (900001 / 10000) 45 =
      Except.error "Invalid latitude. Must be between -90 and 90." := by
    rw [validate_coordinates, if_pos]
    intro hc
    have := hc.2
    norm_num at this
  have hlon : validate_coordinates 45 (1800001 / 10000) =
      Except.error "Invalid longitude. Must be between -180 and 180." := by
    rw [validate_coordinates, if_neg, if_pos]
    · intro hc
      have := hc.2
      norm_num at this
    · intro hc
      apply hc
      norm_num
  refine ⟨by decide, fetchManyLoop_no_origin_attempt f d locations.length locations 1,
    hlat, hlon, ?_, ?_⟩
  · rw [fetch_weather_data, hlat]
  · rw [fetch_weather_data, hlon]

/-- The number of sleep events in a fetchMany trace. -/
def numSleeps (evs : List FetchEvent) : Nat :=
  (evs.filter (fun ev => match ev with
    | FetchEvent.sleep _ => true
    | _ => false)).length

/-- The number of attempted fetches in a fetchMany trace. -/
def numAttempts (evs : List FetchEvent) : Nat :=
  (evs.filter (fun ev => match ev with
    | FetchEvent.attempt _ _ _ => true
    | _ => false)).length

/-- A two-location list whose first fetch fails and whose second
succeeds. -/
def failThenOkLocs : List Location := [⟨1, 10, 10⟩, ⟨2, 20, 20⟩]

/-- A two-location list whose first fetch succeeds and whose second
location is the skipped (0, 0). -/
def okThenSkipLocs : List Location := [⟨1, 20, 20⟩, ⟨2, 0, 0⟩]

/-- C8 counterexample: with a failing first fetch followed by a successful
second fetch there are two attempted fetches but no sleep between them;
and with a successful fetch followed by a trailing (0, 0) location the
sleep occurs after the final attempted fetch.  Both contradict the claim
that the sleep occurs exactly once between every pair of successive
attempted fetches and never after the final one. -/
theorem fetch_many_sleep_cex :
    numAttempts (fetch_weather_for_multiple_locations fetchFailAt10 1 failThenOkLocs).2 = 2 ∧
    numSleeps (fetch_weather_for_multiple_locations fetchFailAt10 1 failThenOkLocs).2 = 0 ∧
    numAttempts (fetch_weather_for_multiple_locations fetchFailAt10 1 okThenSkipLocs).2 = 1 ∧
    (fetch_weather_for_multiple_locations fetchFailAt10 1 okThenSkipLocs).2 =
      [FetchEvent.attempt 1 20 20, FetchEvent.sleep 1, FetchEvent.skip 2] := by
  decide

/-- C8 amended: `time.sleep(delay_between_requests)` runs exactly once
after each successful fetch whose 1-based position is strictly below the
input length; no sleep follows a failed fetch or a skipped (0, 0)
location, and a sleep does follow the final attempted fetch when only
skipped locations remain after it. -/
theorem fetch_many_sleep_count (f : ℚ → ℚ → Except String DataFrame) (d : ℚ)
    (locations : List Location) :
    numSleeps (fetch_weather_for_multiple_locations f d locations).2 =
      ((List.enumFrom 1 locations).filter (fun p =>
        decide (p.1 < locations.length) &&
        !(decide (p.2.latitude = 0) && decide (p.2.longitude = 0)) &&
        (f p.2.latitude p.2.longitude).succeeded)).length := by
  suffices hgen : ∀ locs idx,
      numSleeps (fetchManyLoop f d locations.length idx locs).2 =
        ((List.enumFrom idx locs).filter (fun p =>
          decide (p.1 < locations.length) &&
          !(decide (p.2.latitude = 0) && decide (p.2.longitude = 0)) &&
          (f p.2.latitude p.2.longitude).succeeded)).length by
    exact hgen locations 1
  intro locs
  induction locs with
  | nil => intro idx; rfl
  | cons loc rest ih =>
    intro idx
    have hrec := ih (idx + 1)
    by_cases h : loc.latitude = 0 ∧ loc.longitude = 0
    · simp [fetchManyLoop, numSleeps, List.enumFrom, h, h.1, h.2] at hrec ⊢
      exact hrec
    · have h1 : (!decide (loc.latitude = 0) || !decide (loc.longitude = 0)) = true := by
        rcases not_and_or.mp h with h1 | h1 <;> simp [h1]
      cases hf : f loc.latitude loc.longitude with
      | ok df =>
        by_cases hidx : idx < locations.length <;>
          · simp [fetchManyLoop, numSleeps, List.enumFrom, List.filter_cons, h, h1, hf,
              hidx, Except.succeeded] at hrec ⊢
            omega
      | error e =>
        simp [fetchManyLoop, numSleeps, List.enumFrom, List.filter_cons, h, h1, hf,
          Except.succeeded] at hrec ⊢
        exact hrec
